import Mathlib

/-!
Shallow embedding of the climate-control Raspberry Pi program
(src/main.py, src/main_offline.py, src/helpers/*) and proofs about it.

Conventions:
* Relay states are the Python strings "ON" / "OFF" (the code compares raw
  strings).
* Humidity / temperature values and wall-clock times are rationals;
  the Python code computes with floats but every operation the claims
  touch is a comparison or affine arithmetic, exact on representable
  inputs.
* GPIO writes are modelled as an output trace of
  (relay name, requested state) pairs.
-/

namespace Climate

/-! ### relay_controller.py -/

/-- A GPIO output level. -/
inductive PinLevel where
  | high
  | low
deriving DecidableEq, Repr

/-- `RELAY_PINS` dictionary of src/helpers/relay_controller.py:
`{'relay1': 17, 'relay2': 18}`; an unknown key raises `KeyError`,
modelled as `none`. -/
def RELAY_PINS (relay_name : String) : Option Nat :=
  if relay_name = "relay1" then some 17
  else if relay_name = "relay2" then some 18
  else none

/-- `RelayController.set_relay_state` (src/helpers/relay_controller.py,
lines 13-24): `GPIO.output(RELAY_PINS[relay_name],
GPIO.HIGH if state == 'ON' else GPIO.LOW)`.  Returns the pin written
and the level driven; `none` models the `KeyError` on an unknown relay
name. -/
def set_relay_state (relay_name state : String) : Option (Nat × PinLevel) :=
  (RELAY_PINS relay_name).map
    (fun pin => (pin, if state = "ON" then PinLevel.high else PinLevel.low))

/-! ### Hysteresis policy for relay1

`check_conditions_and_toggle_relays` in src/main_offline.py (lines
114-131); src/main.py lines 71-77 has the identical relay1 logic with
different threshold constants, so the thresholds are parameters here.
The function returns the new `relay_status['relay1']` value together
with the trace of `set_relay_state` calls it performed. -/

/-- Constants of src/main_offline.py. -/
def SLEEP_DURATION_SENSOR : ℚ := 10

/-- src/main_offline.py line 16: `SENSOR_PUBLISH_INTERVAL = 3600`. -/
def SENSOR_PUBLISH_INTERVAL : ℚ := 3600

/-- src/main_offline.py line 17. -/
def HUMIDITY_THRESHOLD_LOW : ℚ := 81

/-- src/main_offline.py line 18. -/
def HUMIDITY_THRESHOLD_HIGH : ℚ := 89

/-- src/main_offline.py line 20: `NOTIFY_INTERVAL = timedelta(minutes=30)`,
in seconds. -/
def NOTIFY_INTERVAL : ℚ := 30 * 60

/-- relay1 branch of `check_conditions_and_toggle_relays`
(src/main_offline.py lines 117-128): if `humidity <
HUMIDITY_THRESHOLD_LOW and relay_status['relay1'] != 'ON'` turn relay1
ON; elif `humidity >= HUMIDITY_THRESHOLD_HIGH and
relay_status['relay1'] != 'OFF'` turn it OFF; otherwise leave it
unchanged.  Result: (new relay1 status, trace of `set_relay_state`
calls). -/
def check_conditions_and_toggle_relays (low high humidity : ℚ)
    (relay1 : String) : String × List (String × String) :=
  if humidity < low ∧ relay1 ≠ "ON" then
    ("ON", [("relay1", "ON")])
  else if high ≤ humidity ∧ relay1 ≠ "OFF" then
    ("OFF", [("relay1", "OFF")])
  else
    (relay1, [])

/-! ### Duty-cycle timing for relay2

`manage_relay2_timing` (src/main_offline.py lines 133-161).  The source
hardcodes `interval_duration = timedelta(minutes=60)` and `on_duration =
timedelta(minutes=10)`; they appear here as parameters `P` and `D` so the
state machine can be stated for arbitrary period/duty values, and the
loop instantiates them with the source's constants.  `now` is the
`datetime.now()` the function samples.  Result: (new relay2 status, new
last_toggle_time, trace of `set_relay_state` calls). -/

/-- One evaluation of `manage_relay2_timing`: if relay2 is ON and
`now - lastToggle >= D`, turn it OFF and reset the toggle time; if it is
not ON and `now - lastToggle >= P - D`, turn it ON and reset the toggle
time; otherwise change nothing. -/
def manage_relay2_timing (P D now lastToggle : ℚ) (relay2 : String) :
    String × ℚ × List (String × String) :=
  if relay2 = "ON" then
    if D ≤ now - lastToggle then ("OFF", now, [("relay2", "OFF")])
    else ("ON", lastToggle, [])
  else
    if P - D ≤ now - lastToggle then ("ON", now, [("relay2", "ON")])
    else (relay2, lastToggle, [])

/-! ### sensor_reader.py

`SensorReader` reads a DHT22.  The device is modelled as a stream of
raw samples, one per attempt; either channel of a sample may be `None`.
Emails (`send_email` calls) are recorded by subject, device
re-initialisations (`_reset_sensor`) are counted. -/

/-- src/helpers/sensor_reader.py line 16. -/
def MAX_RETRIES : Nat := 3

/-- src/helpers/sensor_reader.py line 17. -/
def HUMIDITY_BUFFER : ℚ := 6

/-- src/helpers/sensor_reader.py line 18. -/
def TEMPERATURE_BUFFER : ℚ := -2

/-- src/helpers/sensor_reader.py line 20. -/
def FAILED_SUBJECT : String := "Sensor failed!"

/-- src/helpers/sensor_reader.py line 22. -/
def SUCCESS_SUBJECT : String := "Sensor is working"

/-- A Python exception as far as `SensorReader` distinguishes them. -/
inductive PyError where
  | typeError
  | runtimeError
deriving DecidableEq, Repr

/-- One raw DHT22 sample; each channel may be `None`. -/
structure RawSample where
  temperature : Option ℚ
  humidity : Option ℚ

/-- `SensorReader._attempt_read` (src/helpers/sensor_reader.py lines
73-95).  Line 88 computes `temperature_c * 9 / 5 + 32` before the
`None` check, so a missing temperature raises `TypeError` there; a
missing humidity reaches the `all(...)` check and raises
`RuntimeError`; otherwise the reading is `(temperature_f,
temperature_c + TEMPERATURE_BUFFER, humidity + HUMIDITY_BUFFER)` with
`temperature_f` computed from the raw Celsius. -/
def attempt_read (s : RawSample) : Except PyError (ℚ × ℚ × ℚ) :=
  match s.temperature with
  | none => Except.error PyError.typeError
  | some tc =>
      match s.humidity with
      | none => Except.error PyError.runtimeError
      | some hum =>
          Except.ok (tc * 9 / 5 + 32, tc + TEMPERATURE_BUFFER,
            hum + HUMIDITY_BUFFER)

/-- What a `read_sensor_data` call produces: a reading, a raised
exception, or Python's implicit `None` return (retry loop body never
entered, possible only for `max_retries = 0`). -/
inductive ReadResult where
  | ok (reading : ℚ × ℚ × ℚ)
  | raised (e : PyError)
  | noneReturn
deriving DecidableEq, Repr

/-- Observable outcome of one `read_sensor_data` call: its result, the
`sensor_failed_previously` flag afterwards, the subjects of the emails
sent during the call (in order), and how many `_reset_sensor` calls
were made. -/
structure ReadOutcome where
  result : ReadResult
  sensor_failed_previously : Bool
  emails : List String
  resets : Nat
deriving DecidableEq, Repr

/-- The retry loop of `SensorReader.read_sensor_data`
(src/helpers/sensor_reader.py lines 56-71) from iteration `attempt`
on.  On success: a recovery email is sent iff the sensor had failed
previously, and the flag clears.  On `RuntimeError`: at the last
attempt a failure email is sent iff the sensor had not already failed,
the flag sets, and the error re-raises; at earlier attempts the device
is reset and the loop continues.  A `TypeError` is not caught by
`except RuntimeError` and escapes at once. -/
def read_from (samples : Nat → RawSample) (failedPrev : Bool)
    (maxRetries attempt : Nat) : ReadOutcome :=
  if _hlt : attempt < maxRetries then
    match attempt_read (samples attempt) with
    | Except.ok data =>
        if failedPrev then
          ⟨ReadResult.ok data, false, [SUCCESS_SUBJECT], 0⟩
        else
          ⟨ReadResult.ok data, false, [], 0⟩
    | Except.error PyError.typeError =>
        ⟨ReadResult.raised PyError.typeError, failedPrev, [], 0⟩
    | Except.error PyError.runtimeError =>
        if attempt = maxRetries - 1 then
          if failedPrev then
            ⟨ReadResult.raised PyError.runtimeError, true, [], 0⟩
          else
            ⟨ReadResult.raised PyError.runtimeError, true,
              [FAILED_SUBJECT], 0⟩
        else
          let rest := read_from samples failedPrev maxRetries (attempt + 1)
          ⟨rest.result, rest.sensor_failed_previously, rest.emails,
            rest.resets + 1⟩
  else
    ⟨ReadResult.noneReturn, failedPrev, [], 0⟩
termination_by maxRetries - attempt
decreasing_by omega

/-- `SensorReader.read_sensor_data` with the default
`max_retries = MAX_RETRIES = 3` (both programs construct
`SensorReader(board.D15)` with the default). -/
def read_sensor_data (samples : Nat → RawSample) (failedPrev : Bool) :
    ReadOutcome :=
  read_from samples failedPrev MAX_RETRIES 0

/-! ### The control loops

One iteration ("tick") of each program's control loop, as a function of
the loop state, the current wall-clock time, and the environment: the
outcome of the sensor read (`none` models `read_sensor_data` raising
after exhausting its retries — the loop's `except` catches it) and
whether the telemetry sink (MongoDB insert / MQTT publish) would
succeed.  A tick returns the new loop state, the trace of
`set_relay_state` calls, and `some ok` when a telemetry emission was
attempted with outcome `ok` (`none` when no emission was attempted). -/

/-- src/main.py line 27: `SLEEP_DURATION_DB = 300`. -/
def MAIN_SLEEP_DURATION_DB : ℚ := 300

/-- src/main.py line 28: `HUMIDITY_THRESHOLD_LOW = 80`. -/
def MAIN_HUMIDITY_THRESHOLD_LOW : ℚ := 80

/-- src/main.py line 29: `HUMIDITY_THRESHOLD_HIGH = 90`. -/
def MAIN_HUMIDITY_THRESHOLD_HIGH : ℚ := 90

/-- src/main.py line 30. -/
def TEMPERATURE_THRESHOLD_LOW : ℚ := 28

/-- src/main.py line 31. -/
def TEMPERATURE_THRESHOLD_HIGH : ℚ := 30

/-- `check_conditions_and_toggle_relays` of src/main.py (lines 69-87):
relay statuses start as Python `None`, so they are `Option String`
here; `log_relay_state` records the new status in `relay_status`
(the MongoDB insert outcome does not affect the status).  Result:
(new (relay1, relay2) statuses, trace of `set_relay_state` calls). -/
def main_check_conditions (temperature_c humidity : ℚ)
    (r1 r2 : Option String) :
    (Option String × Option String) × List (String × String) :=
  let step1 :=
    if humidity < MAIN_HUMIDITY_THRESHOLD_LOW ∧ r1 ≠ some "ON" then
      ((some "ON" : Option String), [(("relay1" : String), ("ON" : String))])
    else if MAIN_HUMIDITY_THRESHOLD_HIGH ≤ humidity ∧ r1 ≠ some "OFF" then
      (some "OFF", [("relay1", "OFF")])
    else (r1, [])
  let step2 :=
    if temperature_c < TEMPERATURE_THRESHOLD_LOW ∧ r2 ≠ some "OFF" then
      ((some "OFF" : Option String), [(("relay2" : String), ("OFF" : String))])
    else if TEMPERATURE_THRESHOLD_HIGH ≤ temperature_c ∧ r2 ≠ some "ON" then
      (some "ON", [("relay2", "ON")])
    else (r2, [])
  ((step1.1, step2.1), step1.2 ++ step2.2)

/-- State of `climate_control_loop` in src/main.py. -/
structure MainState where
  relay1 : Option String
  relay2 : Option String
  lastRead : ℚ
  lastDb : ℚ
deriving DecidableEq, Repr

/-- One iteration of `climate_control_loop` (src/main.py lines
107-137).  A raised sensor read jumps to the `except` on line 134:
nothing else in the body runs and the loop proceeds to the next tick.
On a successful read the read cursor advances; if the DB cadence has
elapsed, `mongo_handler.insert_data` is called and `last_db_update_time
= current_time` runs unconditionally after it (the returned success
flag is ignored). -/
def main_tick (st : MainState) (now : ℚ) (reading : Option (ℚ × ℚ × ℚ))
    (insertOk : Bool) :
    MainState × List (String × String) × Option Bool :=
  if SLEEP_DURATION_SENSOR ≤ now - st.lastRead then
    match reading with
    | none => (st, [], none)
    | some (_tf, tc, hum) =>
        let dbDue := MAIN_SLEEP_DURATION_DB ≤ now - st.lastDb
        let lastDb' := if dbDue then now else st.lastDb
        let r := main_check_conditions tc hum st.relay1 st.relay2
        (⟨r.1.1, r.1.2, now, lastDb'⟩, r.2,
          if dbDue then some insertOk else none)
  else (st, [], none)

/-- State of `main` in src/main_offline.py. -/
structure OfflineState where
  relay1 : String
  relay2 : String
  lastRead : ℚ
  lastPub : ℚ
  lastToggle : ℚ
deriving DecidableEq, Repr

/-- One iteration of `main` in src/main_offline.py (lines 185-208).
A raised sensor read jumps to the `except` on line 204: the relay
statuses, the publish cursor and relay2's toggle time are all left as
they were and the loop proceeds.  On a successful read:
`check_conditions_and_toggle_relays` runs, then, if the publish cadence
has elapsed, `publish_sensor_data` is called and
`last_sensor_publish_time = current_time` runs unconditionally after it
(the publish outcome is only logged), then `manage_relay2_timing` runs
with the source's `interval_duration` of 60 minutes and `on_duration`
of 10 minutes. -/
def offline_tick (st : OfflineState) (now : ℚ)
    (reading : Option (ℚ × ℚ × ℚ)) (pubOk : Bool) :
    OfflineState × List (String × String) × Option Bool :=
  if SLEEP_DURATION_SENSOR ≤ now - st.lastRead then
    match reading with
    | none => (st, [], none)
    | some (_tf, _tc, hum) =>
        let r1 := check_conditions_and_toggle_relays HUMIDITY_THRESHOLD_LOW
          HUMIDITY_THRESHOLD_HIGH hum st.relay1
        let pubDue := SENSOR_PUBLISH_INTERVAL ≤ now - st.lastPub
        let lastPub' := if pubDue then now else st.lastPub
        let r2 := manage_relay2_timing (60 * 60) (10 * 60) now
          st.lastToggle st.relay2
        (⟨r1.1, r2.1, now, lastPub', r2.2.1⟩, r1.2 ++ r2.2.2,
          if pubDue then some pubOk else none)
  else (st, [], none)

/-! ### Notification debounce (spec-modelled) -/

/-- Modelled from the spec: the per-condition-key notification
debounce (the spec's `NotificationDebounce` inside
`NotificationDispatcher`) is not part of the source tree; only its
cooldown constant `NOTIFY_INTERVAL` (src/main_offline.py line 20) is.
Spec rule: send only if no notification with the same `conditionKey`
was sent within the cooldown window, tracked per key; otherwise
suppress and report false; a send records the send time for its key.
Result: (sent?, updated per-key last-send map). -/
def notification_dispatch (cooldown now : ℚ)
    (lastSent : String → Option ℚ) (key : String) :
    Bool × (String → Option ℚ) :=
  match lastSent key with
  | none => (true, fun k => if k = key then some now else lastSent k)
  | some t =>
      if now - t < cooldown then (false, lastSent)
      else (true, fun k => if k = key then some now else lastSent k)

/-! ### Theorems -/

/-- C10: `set_relay_state` drives the relay pin HIGH exactly when the
state string is the literal `"ON"`; every other string (lower-case
variants, arbitrary web-form input) drives it LOW. -/
theorem set_relay_state_high_iff_ON (relay_name state : String)
    (pin : Nat) (lvl : PinLevel)
    (h : set_relay_state relay_name state = some (pin, lvl)) :
    (lvl = PinLevel.high ↔ state = "ON") ∧
    (lvl = PinLevel.low ↔ state ≠ "ON") := by
  unfold set_relay_state at h
  cases hp : RELAY_PINS relay_name with
  | none => rw [hp] at h; simp [Option.map] at h
  | some p =>
    rw [hp] at h
    simp only [Option.map, Option.some.injEq, Prod.mk.injEq] at h
    by_cases hs : state = "ON" <;> simp [hs] at h <;>
      rcases h with ⟨hpin, hlvl⟩ <;> subst hlvl <;> simp [hs]

/-- Witness for C10 at a concrete input. -/
theorem set_relay_state_high_iff_ON_witness :
    set_relay_state "relay1" "on" = some (17, PinLevel.low) ∧
    (PinLevel.low = PinLevel.high ↔ ("on" : String) = "ON") ∧
    (PinLevel.low = PinLevel.low ↔ ("on" : String) ≠ "ON") :=
  ⟨by decide,
   set_relay_state_high_iff_ON "relay1" "on" 17 PinLevel.low (by decide)⟩

/-- C2: the relay1 hysteresis: from OFF with humidity below the low
threshold the policy commands ON; from ON with humidity at or above the
high threshold it commands OFF; inside the dead zone `low ≤ h < high`
the state is unchanged and no relay is actuated, whatever the current
state. -/
theorem hysteresis_relay1 (low high h : ℚ) (s : String) :
    (s = "OFF" → h < low →
      check_conditions_and_toggle_relays low high h s
        = ("ON", [("relay1", "ON")])) ∧
    (s = "ON" → high ≤ h →
      check_conditions_and_toggle_relays low high h s
        = ("OFF", [("relay1", "OFF")])) ∧
    (low ≤ h → h < high →
      check_conditions_and_toggle_relays low high h s = (s, [])) := by
  refine ⟨?_, ?_, ?_⟩
  · intro hs hlt
    subst hs
    simp [check_conditions_and_toggle_relays, hlt]
  · intro hs hge
    subst hs
    have h1 : ¬ (h < low ∧ ("ON" : String) ≠ "ON") := by simp
    have h2 : high ≤ h ∧ ("ON" : String) ≠ "OFF" := ⟨hge, by decide⟩
    simp [check_conditions_and_toggle_relays, h1, h2]
  · intro h1 h2
    have : ¬ h < low := not_lt.mpr h1
    have : ¬ high ≤ h := not_le.mpr h2
    simp [check_conditions_and_toggle_relays, *]

/-- Witness for C2 at the program's thresholds (81 / 89). -/
theorem hysteresis_relay1_witness :
    (check_conditions_and_toggle_relays HUMIDITY_THRESHOLD_LOW
        HUMIDITY_THRESHOLD_HIGH 70 "OFF" = ("ON", [("relay1", "ON")])) ∧
    (check_conditions_and_toggle_relays HUMIDITY_THRESHOLD_LOW
        HUMIDITY_THRESHOLD_HIGH 92 "ON" = ("OFF", [("relay1", "OFF")])) ∧
    (check_conditions_and_toggle_relays HUMIDITY_THRESHOLD_LOW
        HUMIDITY_THRESHOLD_HIGH 85 "ON" = ("ON", [])) :=
  ⟨(hysteresis_relay1 HUMIDITY_THRESHOLD_LOW HUMIDITY_THRESHOLD_HIGH
      70 "OFF").1 rfl (by norm_num [HUMIDITY_THRESHOLD_LOW]),
   (hysteresis_relay1 HUMIDITY_THRESHOLD_LOW HUMIDITY_THRESHOLD_HIGH
      92 "ON").2.1 rfl (by norm_num [HUMIDITY_THRESHOLD_HIGH]),
   (hysteresis_relay1 HUMIDITY_THRESHOLD_LOW HUMIDITY_THRESHOLD_HIGH
      85 "ON").2.2 (by norm_num [HUMIDITY_THRESHOLD_LOW])
      (by norm_num [HUMIDITY_THRESHOLD_HIGH])⟩

/-- C3: the relay2 duty-cycle state machine: while OFF it stays OFF
until `now - lastToggle ≥ P - D`, then turns ON and resets the toggle
time; while ON it stays ON until `now - lastToggle ≥ D`, then turns OFF
and resets the toggle time.  Concretely with P = 60 min and D = 10 min
starting OFF at toggle time 0: at every instant `t < 50` it is still
OFF, at `t = 50` it turns ON, it stays ON for `50 ≤ t < 60`, and at
`t = 60` it turns OFF. -/
theorem relay2_duty_cycle (P D now lastToggle : ℚ) (s : String) :
    ((s = "OFF" → now - lastToggle < P - D →
      manage_relay2_timing P D now lastToggle s = ("OFF", lastToggle, [])) ∧
     (s = "OFF" → P - D ≤ now - lastToggle →
      manage_relay2_timing P D now lastToggle s
        = ("ON", now, [("relay2", "ON")])) ∧
     (s = "ON" → now - lastToggle < D →
      manage_relay2_timing P D now lastToggle s = ("ON", lastToggle, [])) ∧
     (s = "ON" → D ≤ now - lastToggle →
      manage_relay2_timing P D now lastToggle s
        = ("OFF", now, [("relay2", "OFF")]))) ∧
    ((∀ t : ℚ, t < 50 →
        manage_relay2_timing 60 10 t 0 "OFF" = ("OFF", 0, [])) ∧
     (manage_relay2_timing 60 10 50 0 "OFF"
        = ("ON", 50, [("relay2", "ON")])) ∧
     (∀ t : ℚ, 50 ≤ t → t < 60 →
        manage_relay2_timing 60 10 t 50 "ON" = ("ON", 50, [])) ∧
     (manage_relay2_timing 60 10 60 50 "ON"
        = ("OFF", 60, [("relay2", "OFF")]))) := by
  constructor
  · refine ⟨?_, ?_, ?_, ?_⟩
    · intro hs hlt
      subst hs
      simp [manage_relay2_timing, not_le.mpr hlt]
    · intro hs hge
      subst hs
      simp [manage_relay2_timing, hge]
    · intro hs hlt
      subst hs
      simp [manage_relay2_timing, not_le.mpr hlt]
    · intro hs hge
      subst hs
      simp [manage_relay2_timing, hge]
  · refine ⟨?_, ?_, ?_, ?_⟩
    · intro t ht
      simp [manage_relay2_timing]
      linarith
    · norm_num [manage_relay2_timing]
    · intro t ht1 ht2
      simp [manage_relay2_timing]
      linarith
    · norm_num [manage_relay2_timing]

/-- C4: evaluating the reader on raw reads with a missing channel.
With the temperature channel missing on the first attempt the call
aborts at once: `temperature_c * 9 / 5` (line 88 of
src/helpers/sensor_reader.py) raises `TypeError`, which `except
RuntimeError` does not catch, so there is no retry, no device reset
and no notification — contradicting the claim that either missing
channel counts as one failed attempt of three.  A missing humidity
channel, by contrast, is retried three times with two resets as the
claim describes. -/
theorem missing_temperature_escapes_retry :
    read_sensor_data (fun _ => ⟨none, some 50⟩) false
      = ⟨ReadResult.raised PyError.typeError, false, [], 0⟩ ∧
    read_sensor_data (fun _ => ⟨some 20, none⟩) false
      = ⟨ReadResult.raised PyError.runtimeError, true,
          [FAILED_SUBJECT], 2⟩ := by
  constructor <;>
    simp [read_sensor_data, MAX_RETRIES, read_from, attempt_read]

/-- C5 counterexample: at raw Celsius 0 and raw humidity 50 the
returned reading is `(32, -2, 56)`: its Fahrenheit channel is
`0 * 9 / 5 + 32 = 32`, computed from the raw Celsius, whereas the
claim's `(c + offset) * 9 / 5 + 32` would be `28.4`. -/
theorem fahrenheit_claim_cex :
    attempt_read ⟨some 0, some 50⟩ = Except.ok (32, -2, 56) ∧
    (32 : ℚ) ≠ ((0 : ℚ) + TEMPERATURE_BUFFER) * 9 / 5 + 32 := by
  constructor
  · norm_num [attempt_read, TEMPERATURE_BUFFER, HUMIDITY_BUFFER]
  · norm_num [TEMPERATURE_BUFFER]

/-- C5 (amended): a successful read of raw Celsius `c` and raw
humidity `h` returns calibrated Celsius `c + TEMPERATURE_BUFFER` and
humidity `h + HUMIDITY_BUFFER`, but its Fahrenheit channel is
`c * 9 / 5 + 32`, derived from the raw Celsius before the offset is
applied. -/
theorem attempt_read_calibration (c h tf tc hcal : ℚ)
    (hread : attempt_read ⟨some c, some h⟩ = Except.ok (tf, tc, hcal)) :
    tc = c + TEMPERATURE_BUFFER ∧ hcal = h + HUMIDITY_BUFFER ∧
    tf = c * 9 / 5 + 32 := by
  simp only [attempt_read, Except.ok.injEq, Prod.mk.injEq] at hread
  exact ⟨hread.2.1.symm, hread.2.2.symm, hread.1.symm⟩

/-- Witness for the amended C5 at raw Celsius 0, raw humidity 50. -/
theorem attempt_read_calibration_witness :
    ((-2 : ℚ) = 0 + TEMPERATURE_BUFFER ∧ (56 : ℚ) = 50 + HUMIDITY_BUFFER ∧
      (32 : ℚ) = 0 * 9 / 5 + 32) :=
  attempt_read_calibration 0 50 32 (-2) 56
    (by norm_num [attempt_read, TEMPERATURE_BUFFER, HUMIDITY_BUFFER])

/-- C6: notification edges of the sensor-health state machine, for a
`read_sensor_data` call with the default three attempts:
(1) when every attempt fails with `RuntimeError`, the call raises,
sets the failed flag, and emails the failure subject exactly once iff
the sensor had not already failed (a repeated failed call emails
nothing);
(2) a successful first attempt after a prior failure emails the
recovery subject exactly once and clears the flag;
(3) a successful first attempt with no prior failure emails nothing;
(4)/(5) one or two failed attempts followed by a success email
nothing — fewer than `max_retries` failures never reach the FAILED
edge. -/
theorem sensor_health_edge_notifications (samples : Nat → RawSample)
    (failedPrev : Bool) (d : ℚ × ℚ × ℚ) :
    ((∀ i, i < 3 →
        attempt_read (samples i) = Except.error PyError.runtimeError) →
      read_sensor_data samples failedPrev
        = ⟨ReadResult.raised PyError.runtimeError, true,
            if failedPrev then [] else [FAILED_SUBJECT], 2⟩) ∧
    (attempt_read (samples 0) = Except.ok d →
      read_sensor_data samples true
        = ⟨ReadResult.ok d, false, [SUCCESS_SUBJECT], 0⟩) ∧
    (attempt_read (samples 0) = Except.ok d →
      read_sensor_data samples false
        = ⟨ReadResult.ok d, false, [], 0⟩) ∧
    (attempt_read (samples 0) = Except.error PyError.runtimeError →
      attempt_read (samples 1) = Except.ok d →
      read_sensor_data samples false
        = ⟨ReadResult.ok d, false, [], 1⟩) ∧
    (attempt_read (samples 0) = Except.error PyError.runtimeError →
      attempt_read (samples 1) = Except.error PyError.runtimeError →
      attempt_read (samples 2) = Except.ok d →
      read_sensor_data samples false
        = ⟨ReadResult.ok d, false, [], 2⟩) := by
  refine ⟨?_, ?_, ?_, ?_, ?_⟩
  · intro hfail
    have h0 := hfail 0 (by norm_num)
    have h1 := hfail 1 (by norm_num)
    have h2 := hfail 2 (by norm_num)
    cases failedPrev <;>
      simp [read_sensor_data, MAX_RETRIES, read_from, h0, h1, h2]
  · intro hok
    simp [read_sensor_data, MAX_RETRIES, read_from, hok]
  · intro hok
    simp [read_sensor_data, MAX_RETRIES, read_from, hok]
  · intro h0 hok
    simp [read_sensor_data, MAX_RETRIES, read_from, h0, hok]
  · intro h0 h1 hok
    simp [read_sensor_data, MAX_RETRIES, read_from, h0, h1, hok]

/-- Witness for C6 on concrete sample streams: a stream that always
fails (fresh failure, then repeated failure), a healthy stream after a
failure, and a stream that recovers on the second attempt. -/
theorem sensor_health_edge_notifications_witness :
    read_sensor_data (fun _ => ⟨some 20, none⟩) false
      = ⟨ReadResult.raised PyError.runtimeError, true,
          [FAILED_SUBJECT], 2⟩ ∧
    read_sensor_data (fun _ => ⟨some 20, none⟩) true
      = ⟨ReadResult.raised PyError.runtimeError, true, [], 2⟩ ∧
    read_sensor_data (fun _ => ⟨some 20, some 50⟩) true
      = ⟨ReadResult.ok (68, 18, 56), false, [SUCCESS_SUBJECT], 0⟩ ∧
    read_sensor_data
        (fun i => if i = 0 then ⟨some 20, none⟩ else ⟨some 20, some 50⟩)
        false
      = ⟨ReadResult.ok (68, 18, 56), false, [], 1⟩ := by
  refine ⟨?_, ?_, ?_, ?_⟩
  · have h := (sensor_health_edge_notifications (fun _ => ⟨some 20, none⟩)
      false (68, 18, 56)).1 (fun i _ => by norm_num [attempt_read])
    simpa using h
  · have h := (sensor_health_edge_notifications (fun _ => ⟨some 20, none⟩)
      true (68, 18, 56)).1 (fun i _ => by norm_num [attempt_read])
    simpa using h
  · exact (sensor_health_edge_notifications (fun _ => ⟨some 20, some 50⟩)
      true (68, 18, 56)).2.1
      (by norm_num [attempt_read, TEMPERATURE_BUFFER, HUMIDITY_BUFFER])
  · exact (sensor_health_edge_notifications
      (fun i => if i = 0 then ⟨some 20, none⟩ else ⟨some 20, some 50⟩)
      false (68, 18, 56)).2.2.2.1
      (by norm_num [attempt_read])
      (by norm_num [attempt_read, TEMPERATURE_BUFFER, HUMIDITY_BUFFER])

/-- Witness for C3 at concrete instants of the P=60/D=10 scenario. -/
theorem relay2_duty_cycle_witness :
    manage_relay2_timing 60 10 30 0 "OFF" = ("OFF", 0, []) ∧
    manage_relay2_timing 60 10 50 0 "OFF" = ("ON", 50, [("relay2", "ON")]) ∧
    manage_relay2_timing 60 10 55 50 "ON" = ("ON", 50, []) ∧
    manage_relay2_timing 60 10 60 50 "ON"
      = ("OFF", 60, [("relay2", "OFF")]) :=
  ⟨(relay2_duty_cycle 60 10 30 0 "OFF").1.1 rfl (by norm_num),
   (relay2_duty_cycle 60 10 50 0 "OFF").1.2.1 rfl (by norm_num),
   (relay2_duty_cycle 60 10 55 50 "ON").1.2.2.1 rfl (by norm_num),
   (relay2_duty_cycle 60 10 60 50 "ON").1.2.2.2 rfl (by norm_num)⟩

/-- C9: a control-loop cycle whose sensor read raises skips policy
evaluation entirely, in both programs: the loop state (every
relay-state record included) is unchanged, no relay is actuated, no
telemetry emission is attempted, and the tick returns normally (the
exception is caught), so the loop proceeds to the next tick. -/
theorem failed_read_skips_policy (stM : MainState) (stO : OfflineState)
    (nowM nowO : ℚ) (okM okO : Bool) :
    main_tick stM nowM none okM = (stM, [], none) ∧
    offline_tick stO nowO none okO = (stO, [], none) := by
  constructor
  · unfold main_tick; split <;> rfl
  · unfold offline_tick; split <;> rfl

/-- C1 counterexample: a tick in each program in which the telemetry
cadence has elapsed and the emission fails (`insert_data` /
`publish` report failure, the third component `some false`), yet the
sink's cursor advances to `now` anyway (from 0 to 300 for the MongoDB
sink, from 0 to 3600 for the MQTT sink) — refuting "after a failed
emission the cursor is unchanged". -/
theorem telemetry_cursor_failed_emission_cex :
    main_tick ⟨some "OFF", some "OFF", 0, 0⟩ 300 (some (68, 20, 85)) false
      = (⟨some "OFF", some "OFF", 300, 300⟩, [], some false) ∧
    offline_tick ⟨"OFF", "OFF", 0, 0, 3600⟩ 3600 (some (68, 20, 85)) false
      = (⟨"OFF", "OFF", 3600, 3600, 3600⟩, [], some false) := by
  constructor
  · norm_num [main_tick, main_check_conditions, MAIN_SLEEP_DURATION_DB,
      MAIN_HUMIDITY_THRESHOLD_LOW, MAIN_HUMIDITY_THRESHOLD_HIGH,
      TEMPERATURE_THRESHOLD_LOW, TEMPERATURE_THRESHOLD_HIGH,
      SLEEP_DURATION_SENSOR]
  · norm_num [offline_tick, check_conditions_and_toggle_relays,
      manage_relay2_timing, SENSOR_PUBLISH_INTERVAL,
      HUMIDITY_THRESHOLD_LOW, HUMIDITY_THRESHOLD_HIGH,
      SLEEP_DURATION_SENSOR]
    decide

/-- C1 (amended): on a successful-read cycle each sink's cursor
advances exactly when the emission cadence has elapsed — an emission is
then attempted and the cursor is set to `now` whether the emission
succeeds or fails (the success flag is ignored), so a failed emission
is next retried a full cadence later, not at the next tick; when the
cadence has not elapsed, no emission is attempted and the cursor is
unchanged. -/
theorem telemetry_cursor_advances_on_attempt (stM : MainState)
    (stO : OfflineState) (now : ℚ) (r : ℚ × ℚ × ℚ) (okM okO : Bool) :
    (SLEEP_DURATION_SENSOR ≤ now - stM.lastRead →
      MAIN_SLEEP_DURATION_DB ≤ now - stM.lastDb →
      (main_tick stM now (some r) okM).1.lastDb = now ∧
      (main_tick stM now (some r) okM).2.2 = some okM) ∧
    (SLEEP_DURATION_SENSOR ≤ now - stM.lastRead →
      now - stM.lastDb < MAIN_SLEEP_DURATION_DB →
      (main_tick stM now (some r) okM).1.lastDb = stM.lastDb ∧
      (main_tick stM now (some r) okM).2.2 = none) ∧
    (SLEEP_DURATION_SENSOR ≤ now - stO.lastRead →
      SENSOR_PUBLISH_INTERVAL ≤ now - stO.lastPub →
      (offline_tick stO now (some r) okO).1.lastPub = now ∧
      (offline_tick stO now (some r) okO).2.2 = some okO) ∧
    (SLEEP_DURATION_SENSOR ≤ now - stO.lastRead →
      now - stO.lastPub < SENSOR_PUBLISH_INTERVAL →
      (offline_tick stO now (some r) okO).1.lastPub = stO.lastPub ∧
      (offline_tick stO now (some r) okO).2.2 = none) := by
  obtain ⟨tf, tc, hum⟩ := r
  refine ⟨?_, ?_, ?_, ?_⟩
  · intro h1 h2
    simp [main_tick, h1, h2]
  · intro h1 h2
    simp [main_tick, h1, not_le.mpr h2]
  · intro h1 h2
    simp [offline_tick, h1, h2]
  · intro h1 h2
    simp [offline_tick, h1, not_le.mpr h2]

/-- Witness for the amended C1 with a failing sink in each program. -/
theorem telemetry_cursor_advances_on_attempt_witness :
    ((main_tick ⟨some "OFF", some "OFF", 0, 0⟩ 300 (some (68, 20, 85))
        false).1.lastDb = 300 ∧
     (main_tick ⟨some "OFF", some "OFF", 0, 0⟩ 300 (some (68, 20, 85))
        false).2.2 = some false) ∧
    ((offline_tick ⟨"OFF", "OFF", 0, 0, 3600⟩ 3600 (some (68, 20, 85))
        false).1.lastPub = 3600 ∧
     (offline_tick ⟨"OFF", "OFF", 0, 0, 3600⟩ 3600 (some (68, 20, 85))
        false).2.2 = some false) :=
  ⟨(telemetry_cursor_advances_on_attempt ⟨some "OFF", some "OFF", 0, 0⟩
      ⟨"OFF", "OFF", 0, 0, 3600⟩ 300 (68, 20, 85) false false).1
      (by norm_num [SLEEP_DURATION_SENSOR])
      (by norm_num [MAIN_SLEEP_DURATION_DB]),
   (telemetry_cursor_advances_on_attempt ⟨some "OFF", some "OFF", 0, 0⟩
      ⟨"OFF", "OFF", 0, 0, 3600⟩ 3600 (68, 20, 85) false false).2.2.1
      (by norm_num [SLEEP_DURATION_SENSOR])
      (by norm_num [SENSOR_PUBLISH_INTERVAL])⟩

/-- C8 counterexample: two offline ticks at the same instant
`now = 4000` from the same state (relay2 OFF since toggle time 0, so
its OFF-hold deadline of `P - D = 3000` seconds is past): with a
failed sensor read relay2 stays OFF, with a successful read it turns
ON — refuting "relay2 produces its square wave on schedule regardless
of whether sensor reads succeed or fail". -/
theorem relay2_needs_successful_read_cex :
    (offline_tick ⟨"OFF", "OFF", 0, 3900, 0⟩ 4000 none true).1.relay2
      = "OFF" ∧
    (offline_tick ⟨"OFF", "OFF", 0, 3900, 0⟩ 4000 (some (68, 20, 85))
        true).1.relay2 = "ON" := by
  constructor
  · unfold offline_tick
    split <;> rfl
  · norm_num [offline_tick, check_conditions_and_toggle_relays,
      manage_relay2_timing, SENSOR_PUBLISH_INTERVAL,
      HUMIDITY_THRESHOLD_LOW, HUMIDITY_THRESHOLD_HIGH,
      SLEEP_DURATION_SENSOR]
    decide

/-- C8 (amended): relay2's duty-cycle decision is independent of the
sensor *values* — on a successful-read cycle any two readings yield the
same relay2 state and toggle time — but it is only evaluated on cycles
whose sensor read succeeds: a failed-read cycle leaves relay2 and its
toggle time untouched, so transitions are delayed past their deadline
while reads fail. -/
theorem relay2_clock_driven_on_success (st : OfflineState) (now : ℚ)
    (r r2 : ℚ × ℚ × ℚ) (ok ok2 : Bool) :
    ((offline_tick st now (some r) ok).1.relay2
        = (offline_tick st now (some r2) ok2).1.relay2 ∧
     (offline_tick st now (some r) ok).1.lastToggle
        = (offline_tick st now (some r2) ok2).1.lastToggle) ∧
    (offline_tick st now none ok).1.relay2 = st.relay2 ∧
    (offline_tick st now none ok).1.lastToggle = st.lastToggle := by
  obtain ⟨tf, tc, hum⟩ := r
  obtain ⟨tf2, tc2, hum2⟩ := r2
  refine ⟨?_, ?_, ?_⟩ <;> unfold offline_tick <;> split <;> simp

/-- C7: the debounce sends at most one notification per condition key
per cooldown window: with a last send for `key` recorded at time `t`, a
request within the window (`now - t < cooldown`) is suppressed,
reporting false and leaving the state unchanged; a request once the
window has elapsed (`cooldown ≤ now - t`), in particular at exactly
`t + cooldown`, is sent.  Stated for every condition key and per-key
map, hence for each of the five condition keys the claim lists. -/
theorem notification_debounce (cooldown t now : ℚ)
    (lastSent : String → Option ℚ) (key : String)
    (hkey : lastSent key = some t) :
    (now - t < cooldown →
      notification_dispatch cooldown now lastSent key
        = (false, lastSent)) ∧
    (cooldown ≤ now - t →
      (notification_dispatch cooldown now lastSent key).1 = true) ∧
    (notification_dispatch cooldown (t + cooldown) lastSent key).1
      = true := by
  refine ⟨?_, ?_, ?_⟩
  · intro hin
    simp [notification_dispatch, hkey, hin]
  · intro hout
    simp [notification_dispatch, hkey, not_lt.mpr hout]
  · simp [notification_dispatch, hkey]

/-- Witness for C7 with the source's `NOTIFY_INTERVAL` cooldown of 30
minutes and the condition key "sensor-failed": a second request 600
seconds after a send is suppressed; a request exactly 1800 seconds
after is sent. -/
theorem notification_debounce_witness :
    (notification_dispatch NOTIFY_INTERVAL 600
        (fun k => if k = "sensor-failed" then some 0 else none)
        "sensor-failed"
      = (false, fun k => if k = "sensor-failed" then some 0 else none)) ∧
    ((notification_dispatch NOTIFY_INTERVAL 1800
        (fun k => if k = "sensor-failed" then some 0 else none)
        "sensor-failed").1 = true) :=
  ⟨(notification_debounce NOTIFY_INTERVAL 0 600
      (fun k => if k = "sensor-failed" then some 0 else none)
      "sensor-failed" (by norm_num)).1
      (by norm_num [NOTIFY_INTERVAL]),
   (notification_debounce NOTIFY_INTERVAL 0 1800
      (fun k => if k = "sensor-failed" then some 0 else none)
      "sensor-failed" (by norm_num)).2.1
      (by norm_num [NOTIFY_INTERVAL])⟩

end Climate
